import Mathlib

/-!
Verification of the yoto-esp32-controller device-state synchronization and
command-dispatch engine.

The Python sources are shallowly embedded:

* `Yoto.Backend` models `src/yotobackend/client.py` (`YotoClient`): the
  `DeviceState` dataclass, `refresh_device_state`'s update of a device's
  state from a status payload, `_publish_device_command`, the playback
  commands `play`/`pause`/`resume`/`stop_playback`, and the
  `stop`-before-`start` shutdown path.
* `Yoto.Core` models `src/core/api_client.py` (`YotoAPIClient`): the
  `DeviceState`/`Card` data models, `_parse_key`, `_resolve_device_id`,
  `_ensure_mqtt_connected`, `_update_state_from_player`, the playback
  commands `play`/`pause`/`resume`/`stop`, `next_track`/`previous_track`,
  `play_card`, `get_library`, `get_card_chapters` and
  `_get_or_download_artwork`.

Network and transport interactions are passed in as explicit oracle
arguments (what the remote side would answer, whether a publish raises),
and every side effect is recorded in an explicit event trace, so that the
embedded functions are pure and executable.  Python exceptions are modelled
with `Except`: a function that can let an exception escape to its caller
returns `Except String α`; a `try/except` in the source appears as a
branch on the oracle that produces an `.ok` result in the handler.
Python truthiness (`if not x:` on strings/ints/options) is modelled by
explicit `truthy` helpers.
-/

namespace Yoto
namespace Backend

/-- The `yotobackend.client.DeviceState`: per-device playback/telemetry state.
Numeric JSON values are modelled as `Int` (the code does no arithmetic on
them; `temperature` merely stores `float(...)` of the payload number). -/
structure DeviceState where
  playback_status : String := "stopped"
  card_id : Option String := none
  volume : Int := 8
  battery : Option Int := none
  wifi_strength : Option Int := none
  temperature : Option Int := none
  ambient_light : Option Int := none
deriving DecidableEq, Repr

/-- The device-status JSON payload consumed by
`YotoClient.refresh_device_state`.  A field that is absent from the JSON
object (or explicitly `null`, which `dict.get` does not distinguish) is
`none`. -/
structure StatusPayload where
  playbackStatus : Option String := none
  cardId : Option String := none
  userVolumePercentage : Option Int := none
  batteryLevelPercentage : Option Int := none
  wifiStrength : Option Int := none
  temperatureCelcius : Option Int := none
  ambientLightSensorReading : Option Int := none
deriving DecidableEq, Repr

/-- The state-update portion of `YotoClient.refresh_device_state`
(src/yotobackend/client.py lines 550-562), applied to the state record for
the resolved device:

```python
state.playback_status = data.get("playbackStatus", state.playback_status)
card = data.get("cardId")
state.card_id = None if card == "none" else card or state.card_id
state.volume = data.get("userVolumePercentage", state.volume)
state.battery = data.get("batteryLevelPercentage")
state.wifi_strength = data.get("wifiStrength")
if data.get("temperatureCelcius") is not None:
    try:
        state.temperature = float(data.get("temperatureCelcius"))
    except (TypeError, ValueError):
        state.temperature = state.temperature
state.ambient_light = data.get("ambientLightSensorReading")
```

`card or state.card_id` uses Python truthiness: both `None` and the empty
string fall back to the previous value.  `float` of a JSON number always
succeeds, so the `except` arm (which is a no-op anyway) is never taken for
payloads of the documented numeric shape. -/
def applyStatus (state : DeviceState) (data : StatusPayload) : DeviceState :=
  { playback_status := data.playbackStatus.getD state.playback_status
    card_id :=
      match data.cardId with
      | some c => if c = "none" then none else if c = "" then state.card_id else some c
      | none => state.card_id
    volume := data.userVolumePercentage.getD state.volume
    battery := data.batteryLevelPercentage
    wifi_strength := data.wifiStrength
    temperature :=
      match data.temperatureCelcius with
      | some t => some t
      | none => state.temperature
    ambient_light := data.ambientLightSensorReading }

/-- The environment of one `YotoClient._publish_device_command` call
(src/yotobackend/client.py lines 325-350): whether `self.is_mqtt_connected`
holds, whether the device id is a key of `self.devices`, and whether the
underlying `mqtt_client.publish` returns `MQTT_ERR_SUCCESS`. -/
structure PublishEnv where
  mqttConnected : Bool
  deviceKnown : Bool
  publishOk : Bool
deriving DecidableEq, Repr

/-- The `YotoClient._publish_device_command`: validates the connection and the
device, then publishes; a failing publish raises inside the worker thread,
but that exception is caught by the surrounding `try/except`, which logs
and returns `False`.  The function itself therefore never raises and
reports failure only as a boolean. -/
def publishDeviceCommand (env : PublishEnv) : Bool :=
  if !env.mqttConnected then false
  else if !env.deviceKnown then false
  else env.publishOk

/-- The `YotoClient.play(card_id)` (lines 451-474).  `_ensure_device` raises
`RuntimeError` when no device is selected; a card id missing from
`self.library` raises `ValueError`; and when `_publish_device_command`
returns `False` the method raises `RuntimeError("Failed to send play
command")`. -/
def ycPlay (deviceSelected cardInLibrary : Bool) (env : PublishEnv) :
    Except String Unit :=
  if !deviceSelected then .error "No device selected"
  else if !cardInLibrary then .error "Card not found"
  else if publishDeviceCommand env then .ok ()
  else .error "Failed to send play command"

/-- The `YotoClient.pause()` (lines 476-481): raises `RuntimeError` when the
publish did not succeed. -/
def ycPause (deviceSelected : Bool) (env : PublishEnv) : Except String Unit :=
  if !deviceSelected then .error "No device selected"
  else if publishDeviceCommand env then .ok ()
  else .error "Failed to send pause command"

/-- The `YotoClient.resume()` (lines 483-488). -/
def ycResume (deviceSelected : Bool) (env : PublishEnv) : Except String Unit :=
  if !deviceSelected then .error "No device selected"
  else if publishDeviceCommand env then .ok ()
  else .error "Failed to send resume command"

/-- The `YotoClient.stop_playback()` (lines 490-495). -/
def ycStopPlayback (deviceSelected : Bool) (env : PublishEnv) : Except String Unit :=
  if !deviceSelected then .error "No device selected"
  else if publishDeviceCommand env then .ok ()
  else .error "Failed to send stop command"

/-- Status of an asyncio task held by the client. -/
inductive TaskStatus
  | running
  | cancelled
deriving DecidableEq, Repr

/-- The `YotoClient` fields touched by `stop()`/`_disconnect_mqtt`:
`_refresh_task` and `_state_task` (absent until `start()` creates them),
`self.mqtt_client` (absent until `_connect_mqtt`), `self._mqtt_connected`,
and the `requests.Session` (open from `__init__`). -/
structure ShutdownState where
  refreshTask : Option TaskStatus := none
  stateTask : Option TaskStatus := none
  mqttClientPresent : Bool := false
  mqttConnected : Bool := false
  sessionOpen : Bool := true
deriving DecidableEq, Repr

/-- The client as constructed by `YotoClient.__init__` before any
`start()`: no background tasks, no MQTT client, an open HTTP session. -/
def initShutdownState : ShutdownState := {}

/-- The `YotoClient._disconnect_mqtt` (lines 244-257): guarded by
`if self.mqtt_client:`, so with no MQTT client it does nothing; otherwise
it clears `_mqtt_connected`, stops the loop, disconnects inside a
`try/except` that logs any error, and sets `mqtt_client` to `None`.  No
path lets an exception escape. -/
def disconnectMqtt (c : ShutdownState) : ShutdownState :=
  if c.mqttClientPresent then
    { c with mqttConnected := false, mqttClientPresent := false }
  else c

/-- The `YotoClient.stop()` (lines 100-112).  Each task cancellation awaits the
task under `contextlib.suppress(Exception)`; `_disconnect_mqtt` cannot
raise (see `disconnectMqtt`); `requests.Session.close` does not raise.
The result is `Except` so that a raising path, had one existed, would be
an `.error`. -/
def ycStop (c : ShutdownState) : Except String ShutdownState :=
  let c1 := match c.refreshTask with
    | some _ => { c with refreshTask := some TaskStatus.cancelled }
    | none => c
  let c2 := match c1.stateTask with
    | some _ => { c1 with stateTask := some TaskStatus.cancelled }
    | none => c1
  let c3 := disconnectMqtt c2
  .ok { c3 with sessionOpen := false }

end Backend

namespace Core

/-- A chapter record of a `yoto_api` library card (`card.chapters` values):
`chap.key`, `chap.title`, `chap.duration`, `chap.icon`. -/
structure Chapter where
  key : String
  title : String
  duration : Int
  icon : Option String := none
deriving DecidableEq, Repr

/-- A `yoto_api` library item (`manager.library` values): its title, the
large cover-image URL used for artwork downloads, and its chapters dict
(an insertion-ordered mapping chapter key → chapter). -/
structure LibItem where
  title : String
  cover_image_large : Option String := none
  chapters : List (String × Chapter) := []
deriving DecidableEq, Repr

/-- The fields of a `yoto_api` `YotoPlayer` read by `YotoAPIClient`.
Numeric telemetry is modelled as `Int` (no arithmetic is performed on it). -/
structure Player where
  name : String := ""
  device_type : String := ""
  online : Bool := false
  card_id : Option String := none
  is_playing : Bool := false
  playback_status : Option String := none
  chapter_title : Option String := none
  track_title : Option String := none
  track_position : Option Int := none
  track_length : Option Int := none
  user_volume : Option Int := none
  battery_level_percentage : Option Int := none
  wifi_strength : Option Int := none
  temperature_celcius : Option Int := none
  ambient_light_sensor_reading : Option Int := none
  track_key : Option String := none
  chapter_key : Option String := none
deriving DecidableEq, Repr

/-- The `YotoManager` state visible to `YotoAPIClient`: the players dict
and the library dict, both insertion-ordered. -/
structure Manager where
  players : List (String × Player) := []
  library : List (String × LibItem) := []
deriving DecidableEq, Repr

/-- The `core.data_models.DeviceState` (default volume 0). -/
structure DeviceState where
  playback_status : String := "stopped"
  card_id : Option String := none
  volume : Int := 0
  battery : Option Int := none
  wifi_strength : Option Int := none
  temperature : Option Int := none
  ambient_light : Option Int := none
deriving DecidableEq, Repr

/-- The `core.data_models.Card`: id, title, optional cached artwork path
(modelled as the file name inside the cache directory). -/
structure Card where
  id : String
  title : String
  art_path : Option String := none
deriving DecidableEq, Repr

/-- One entry of `self.devices` as built by `_update_devices`. -/
structure DeviceInfo where
  name : String
  device_type : String
  online : Bool
deriving DecidableEq, Repr

/-- The mutable fields of a `YotoAPIClient` instance (`__init__`,
src/core/api_client.py lines 342-369). -/
structure Client where
  manager : Option Manager := none
  playback_status : String := "stopped"
  active_card_id : Option String := none
  current_card_title : Option String := none
  current_chapter_title : Option String := none
  current_track_title : Option String := none
  track_position : Int := 0
  track_length : Int := 0
  device_state : DeviceState := {}
  devices : List (String × DeviceInfo) := []
  library : List (String × Card) := []
  libraryTimestamp : Int := 0
deriving DecidableEq, Repr

/-- Ambient state around the client: the `YOTO_DEVICE_ID` environment
variable, whether the MQTT session held by `manager.mqtt_client` is
connected (`is_mqtt_connected`), and the files present in the artwork
cache directory. -/
structure World where
  env : Option String := none
  client : Client := {}
  mqttConnected : Bool := false
  cacheFiles : List String := []
deriving DecidableEq, Repr

/-- Externally visible effects of a client operation, in issuance order. -/
inductive Event
  | connectToEvents
  | publishResume (device : String)
  | publishPause (device : String)
  | publishStop (device : String)
  | publishPlayCard (device card chapterKey : String) (trackKey : Nat)
  | updatePlayersStatus
  | updateCardDetail (card : String)
  | updateLibrary
  | artFetch (url : String)
deriving DecidableEq, Repr

/-- Whether an event is an outbound transport publish (an MQTT command),
as opposed to a connect attempt or a REST fetch. -/
def Event.isPublish : Event → Bool
  | .publishResume _ => true
  | .publishPause _ => true
  | .publishStop _ => true
  | .publishPlayCard _ _ _ _ => true
  | _ => false

/-- Whether an event is an MQTT connect attempt. -/
def Event.isConnect : Event → Bool
  | .connectToEvents => true
  | _ => false

/-- Number of MQTT connect attempts recorded in a trace. -/
def connectAttempts (ev : List Event) : Nat :=
  (ev.filter Event.isConnect).length

/-- Python truthiness of an optional string: `None` and `""` are falsy. -/
def truthyStr : Option String → Bool
  | none => false
  | some s => s ≠ ""

/-- Python `x or d` for an optional integer `x`: `None` and `0` fall back
to `d`. -/
def orIntD : Option Int → Int → Int
  | none, d => d
  | some n, d => if n = 0 then d else n

/-- Python `a or b` on optional strings: a missing or empty `a` falls back
to `b`. -/
def strOr : Option String → Option String → Option String
  | some s, b => if s = "" then b else some s
  | none, b => b

/-- The `str.zfill(n)`: left-pad with `'0'` to length `n`. -/
def zfill (n : Nat) (s : String) : String :=
  if s.length ≥ n then s
  else String.mk (List.replicate (n - s.length) '0') ++ s

/-- Base-10 value of a digit string, as computed by Python `int` on a
non-empty string of ASCII digits (on such input `int` never raises, so
`_parse_key`'s `ValueError` arm is unreachable). -/
def digitsToNat (l : List Char) : Nat :=
  l.foldl (fun acc c => acc * 10 + (c.toNat - '0'.toNat)) 0

/-- The `YotoAPIClient._parse_key` (lines 25-35): keep the digits of the key
string and parse them as an integer, defaulting to 1 for a missing or
empty key or a key without digits. -/
def parse_key (key : Option String) : Nat :=
  match key with
  | none => 1
  | some s =>
    if s = "" then 1
    else
      let digits := s.toList.filter Char.isDigit
      if digits.isEmpty then 1
      else digitsToNat digits

/-- The fallback of `_resolve_device_id`: the first key of
`manager.players` when the manager exists and has players, else `None`. -/
def firstPlayerId (c : Client) : Option String :=
  match c.manager with
  | some m =>
    match m.players with
    | [] => none
    | kv :: _ => some kv.1
  | none => none

/-- The `YotoAPIClient._resolve_device_id` (lines 36-52): the `YOTO_DEVICE_ID`
environment variable if set (non-empty), else the first known player. -/
def resolve_device_id (env : Option String) (c : Client) : Option String :=
  match env with
  | some d => if d = "" then firstPlayerId c else some d
  | none => firstPlayerId c

/-- The `YotoAPIClient._get_card_title` (lines 64-74): the title from the
client's own library, else from the manager's library, else the card id. -/
def get_card_title (c : Client) (cid : String) : String :=
  match c.library.lookup cid with
  | some card => card.title
  | none =>
    match c.manager with
    | some m =>
      match m.library.lookup cid with
      | some item => item.title
      | none => cid
    | none => cid

/-- The `YotoAPIClient._update_state_from_player` (lines 444-493): copy the
resolved player's fields into the client mirror fields and the extended
`device_state`, with Python `or`-fallbacks (an empty `playback_status`
falls back to `is_playing`; a zero/absent `user_volume` keeps the stored
volume; absent positions become 0), unconditional overwrites for
`battery`, `wifi_strength` and `ambient_light`, and a guarded update for
`temperature`. -/
def update_state_from_player (env : Option String) (c : Client) : Client :=
  match c.manager with
  | none => c
  | some m =>
    match resolve_device_id env c with
    | none => c
    | some did =>
      match m.players.lookup did with
      | none => c
      | some p =>
        let status :=
          match p.playback_status with
          | some s => if s = "" then (if p.is_playing then "playing" else "stopped") else s
          | none => if p.is_playing then "playing" else "stopped"
        let cardTitle :=
          match p.card_id with
          | some s => if s = "" then none else some (get_card_title c s)
          | none => none
        { c with
          playback_status := status
          active_card_id := p.card_id
          current_chapter_title := p.chapter_title
          current_track_title := p.track_title
          track_position := orIntD p.track_position 0
          track_length := orIntD p.track_length 0
          current_card_title := cardTitle
          device_state :=
            { playback_status := status
              card_id := p.card_id
              volume := orIntD p.user_volume c.device_state.volume
              battery := p.battery_level_percentage
              wifi_strength := p.wifi_strength
              temperature :=
                match p.temperature_celcius with
                | some t => some t
                | none => c.device_state.temperature
              ambient_light := p.ambient_light_sensor_reading } }

/-- The `YotoAPIClient._ensure_mqtt_connected` (lines 54-63): do nothing
without a manager or while connected; otherwise attempt one
`connect_to_events` call.  The oracle `connectOk` tells whether the
attempt establishes the connection; a raising attempt (caught and logged)
is `connectOk = false`. -/
def ensure_mqtt_connected (connectOk : Bool) (w : World) : World × List Event :=
  match w.client.manager with
  | none => (w, [])
  | some _ =>
    if w.mqttConnected then (w, [])
    else ({ w with mqttConnected := connectOk }, [Event.connectToEvents])

/-- The `YotoAPIClient.play` (lines 75-103): ensure the MQTT connection, then
bail out (with only a log message) when the manager is missing, the device
cannot be resolved or is unknown, the player is offline, or no card is
loaded; otherwise send the resume command via the manager.  The
`try/except` around `resume_player` catches a raising publish
(`publishRaises`) and logs it, so both branches return the same result. -/
def play (connectOk publishRaises : Bool) (w : World) :
    Except String (World × List Event) :=
  let we := ensure_mqtt_connected connectOk w
  match we.1.client.manager with
  | none => .ok (we.1, we.2)
  | some m =>
    match resolve_device_id we.1.env we.1.client with
    | none => .ok (we.1, we.2)
    | some did =>
      match m.players.lookup did with
      | none => .ok (we.1, we.2)
      | some p =>
        if !p.online then .ok (we.1, we.2)
        else if !truthyStr p.card_id then .ok (we.1, we.2)
        else
          let ev := we.2 ++ [Event.publishResume did]
          if publishRaises then .ok (we.1, ev) else .ok (we.1, ev)

/-- The `YotoAPIClient.pause` (lines 105-125): like `play` but with no
online/card checks; the pause command is sent for any resolved, known
device, and a raising publish is caught and logged. -/
def pause (connectOk publishRaises : Bool) (w : World) :
    Except String (World × List Event) :=
  let we := ensure_mqtt_connected connectOk w
  match we.1.client.manager with
  | none => .ok (we.1, we.2)
  | some m =>
    match resolve_device_id we.1.env we.1.client with
    | none => .ok (we.1, we.2)
    | some did =>
      match m.players.lookup did with
      | none => .ok (we.1, we.2)
      | some _ =>
        let ev := we.2 ++ [Event.publishPause did]
        if publishRaises then .ok (we.1, ev) else .ok (we.1, ev)

/-- The `YotoAPIClient.resume` (lines 127-144): same shape as `pause`, sending
the resume command. -/
def resume (connectOk publishRaises : Bool) (w : World) :
    Except String (World × List Event) :=
  let we := ensure_mqtt_connected connectOk w
  match we.1.client.manager with
  | none => .ok (we.1, we.2)
  | some m =>
    match resolve_device_id we.1.env we.1.client with
    | none => .ok (we.1, we.2)
    | some did =>
      match m.players.lookup did with
      | none => .ok (we.1, we.2)
      | some _ =>
        let ev := we.2 ++ [Event.publishResume did]
        if publishRaises then .ok (we.1, ev) else .ok (we.1, ev)

/-- The `YotoAPIClient.stop` (lines 146-163): same shape as `pause`, sending
the stop command. -/
def stop (connectOk publishRaises : Bool) (w : World) :
    Except String (World × List Event) :=
  let we := ensure_mqtt_connected connectOk w
  match we.1.client.manager with
  | none => .ok (we.1, we.2)
  | some m =>
    match resolve_device_id we.1.env we.1.client with
    | none => .ok (we.1, we.2)
    | some did =>
      match m.players.lookup did with
      | none => .ok (we.1, we.2)
      | some _ =>
        let ev := we.2 ++ [Event.publishStop did]
        if publishRaises then .ok (we.1, ev) else .ok (we.1, ev)

/-- One chapter dict built by `get_card_chapters`
(`{"key": ..., "title": ..., "duration": ..., "iconUrl": ...}`). -/
structure ChapterEntry where
  key : String
  title : String
  duration : Int
  iconUrl : Option String
deriving DecidableEq, Repr

/-- The list comprehension over `card.chapters.values()` in
`get_card_chapters`. -/
def chapterEntries (item : LibItem) : List ChapterEntry :=
  item.chapters.map (fun kv =>
    { key := kv.2.key, title := kv.2.title, duration := kv.2.duration,
      iconUrl := kv.2.icon })

/-- Dict assignment `manager.library[cid] = item` on the association-list
model: replace in place if present, else append. -/
def setLib (lib : List (String × LibItem)) (cid : String) (item : LibItem) :
    List (String × LibItem) :=
  if (lib.lookup cid).isSome then
    lib.map (fun kv => if kv.1 = cid then (cid, item) else kv)
  else lib ++ [(cid, item)]

/-- The `YotoAPIClient.get_card_chapters` (lines 536-559).  Returns `None`
without a manager.  If the card is not resident or has no chapters, it
attempts `update_card_detail` (the oracle `fetchDetail`); a raising fetch
is caught, logged, and turned into the empty list.  After a successful
fetch a card that is still absent or chapterless also yields the empty
list; otherwise the chapter dicts are returned.  No path raises. -/
def get_card_chapters (fetchDetail : Except Unit LibItem) (c : Client)
    (cid : String) : Client × Option (List ChapterEntry) × List Event :=
  match c.manager with
  | none => (c, none, [])
  | some m =>
    let card0 := m.library.lookup cid
    let needsFetch :=
      match card0 with
      | none => true
      | some card => card.chapters.isEmpty
    if needsFetch then
      match fetchDetail with
      | .error _ => (c, some [], [Event.updateCardDetail cid])
      | .ok item =>
        let lib := setLib m.library cid item
        let c' := { c with manager := some { m with library := lib } }
        match lib.lookup cid with
        | none => (c', some [], [Event.updateCardDetail cid])
        | some card =>
          if card.chapters.isEmpty then (c', some [], [Event.updateCardDetail cid])
          else (c', some (chapterEntries card), [Event.updateCardDetail cid])
    else
      match card0 with
      | none => (c, some [], [])
      | some card => (c, some (chapterEntries card), [])

/-- The `YotoAPIClient.next_track` (lines 201-247): resolve the device and its
loaded card, fetch the chapter list (`get_card_chapters(...) or []`),
compute the 1-based current position from `track_key or chapter_key`, and
stop with only a log message when already at or past the last chapter.
Otherwise publish `play_card` for the adjacent chapter (uncaught if it
raises), poll the player status (uncaught if it raises), and refresh the
mirror state. -/
def next_track (connectOk : Bool) (fetchDetail : Except Unit LibItem)
    (playCardRaises : Bool) (poll : Except Unit (List (String × Player)))
    (w : World) : Except String (World × List Event) :=
  let we := ensure_mqtt_connected connectOk w
  match we.1.client.manager with
  | none => .ok (we.1, we.2)
  | some m =>
    match resolve_device_id we.1.env we.1.client with
    | none => .ok (we.1, we.2)
    | some did =>
      match m.players.lookup did with
      | none => .ok (we.1, we.2)
      | some p =>
        if !truthyStr p.card_id then .ok (we.1, we.2)
        else
          let cid := p.card_id.getD ""
          let gc := get_card_chapters fetchDetail we.1.client cid
          let w1 := { we.1 with client := gc.1 }
          let ev := we.2 ++ gc.2.2
          let chapters := gc.2.1.getD []
          if chapters.isEmpty then .ok (w1, ev)
          else
            let current := parse_key (strOr p.track_key p.chapter_key)
            if current ≥ chapters.length then .ok (w1, ev)
            else
              let nextKeyStr :=
                match chapters.get? current with
                | some ch => ch.key
                | none => zfill 2 (toString (current + 1))
              let ev := ev ++ [Event.publishPlayCard did cid nextKeyStr
                                 (parse_key (some nextKeyStr))]
              if playCardRaises then .error "play_card raised"
              else
                match w1.client.manager with
                | none =>
                  .ok ({ w1 with client := update_state_from_player w1.env w1.client }, ev)
                | some m1 =>
                  match poll with
                  | .error _ => .error "update_players_status raised"
                  | .ok newPlayers =>
                    let ev := ev ++ [Event.updatePlayersStatus]
                    let w2 := { w1 with client :=
                      { w1.client with manager := some { m1 with players := newPlayers } } }
                    .ok ({ w2 with client := update_state_from_player w2.env w2.client }, ev)

/-- The `YotoAPIClient.previous_track` (lines 249-295): mirror image of
`next_track`; stops with only a log message when the current position is
at index 1 or lower; otherwise indexes `chapters[current - 2]`, which in
Python raises `IndexError` when the position exceeds the chapter count by
more than one (modelled as an `.error`). -/
def previous_track (connectOk : Bool) (fetchDetail : Except Unit LibItem)
    (playCardRaises : Bool) (poll : Except Unit (List (String × Player)))
    (w : World) : Except String (World × List Event) :=
  let we := ensure_mqtt_connected connectOk w
  match we.1.client.manager with
  | none => .ok (we.1, we.2)
  | some m =>
    match resolve_device_id we.1.env we.1.client with
    | none => .ok (we.1, we.2)
    | some did =>
      match m.players.lookup did with
      | none => .ok (we.1, we.2)
      | some p =>
        if !truthyStr p.card_id then .ok (we.1, we.2)
        else
          let cid := p.card_id.getD ""
          let gc := get_card_chapters fetchDetail we.1.client cid
          let w1 := { we.1 with client := gc.1 }
          let ev := we.2 ++ gc.2.2
          let chapters := gc.2.1.getD []
          if chapters.isEmpty then .ok (w1, ev)
          else
            let current := parse_key (strOr p.track_key p.chapter_key)
            if current ≤ 1 then .ok (w1, ev)
            else
              match chapters.get? (current - 2) with
              | none => .error "IndexError"
              | some ch =>
                let prevKeyStr := ch.key
                let ev := ev ++ [Event.publishPlayCard did cid prevKeyStr
                                   (parse_key (some prevKeyStr))]
                if playCardRaises then .error "play_card raised"
                else
                  match w1.client.manager with
                  | none =>
                    .ok ({ w1 with client := update_state_from_player w1.env w1.client }, ev)
                  | some m1 =>
                    match poll with
                    | .error _ => .error "update_players_status raised"
                    | .ok newPlayers =>
                      let ev := ev ++ [Event.updatePlayersStatus]
                      let w2 := { w1 with client :=
                        { w1.client with manager := some { m1 with players := newPlayers } } }
                      .ok ({ w2 with client := update_state_from_player w2.env w2.client }, ev)

/-- The `YotoAPIClient.play_card` (lines 297-339): resolve the device, default
the track key from the chapter argument (`str(chapter)` is the `chapter`
parameter here), zero-pad the chapter key, and publish `play_card`; the
whole command-and-refresh block sits in one `try/except`, so a raising
publish or a raising status poll is caught and logged. -/
def play_card (connectOk : Bool) (chapter : String) (trackKeyArg : Option Nat)
    (playCardRaises : Bool) (poll : Except Unit (List (String × Player)))
    (cardId : String) (w : World) : Except String (World × List Event) :=
  let we := ensure_mqtt_connected connectOk w
  match we.1.client.manager with
  | none => .ok (we.1, we.2)
  | some m =>
    match resolve_device_id we.1.env we.1.client with
    | none => .ok (we.1, we.2)
    | some did =>
      let trackKey :=
        match trackKeyArg with
        | some t => t
        | none => parse_key (some chapter)
      let chapKeyStr := zfill 2 chapter
      let ev := we.2 ++ [Event.publishPlayCard did cardId chapKeyStr trackKey]
      if playCardRaises then .ok (we.1, ev)
      else
        let ev := ev ++ [Event.updatePlayersStatus]
        match poll with
        | .error _ => .ok (we.1, ev)
        | .ok newPlayers =>
          let w1 := { we.1 with client :=
            { we.1.client with manager := some { m with players := newPlayers } } }
          .ok ({ w1 with client := update_state_from_player w1.env w1.client }, ev)

/-- Whether a cache file name matches the glob `f"{card_id}.*"` used by
`_get_or_download_artwork`: the name starts with the card id followed by a
dot (card ids contain no glob metacharacters). -/
def matchesArt (cid f : String) : Bool :=
  (cid.toList ++ ['.']).isPrefixOf f.toList

/-- The `self.cache_dir.glob(f"{card_id}.*")` on the modelled cache listing. -/
def globArt (files : List String) (cid : String) : List String :=
  files.filter (matchesArt cid)

/-- Outcome of the `requests.get(art_url)` episode inside
`_get_or_download_artwork`: a response with its content-type header, or
any failure (connection error, non-2xx status, write error), all of which
the function's `try/except` swallows. -/
inductive FetchOutcome
  | ok (contentType : String)
  | fail
deriving DecidableEq, Repr

/-- Extension inference of `_get_or_download_artwork` (lines 651-656):
default `.jpg`, `.png` when the lowered content-type contains "png",
`.webp` when it contains "webp".  Lowering is per-character, which agrees
with Python `str.lower()` on content-type headers. -/
def extOfContentType (ct : String) : String :=
  let ctl := ct.toList.map Char.toLower
  if "png".toList <:+: ctl then ".png"
  else if "webp".toList <:+: ctl then ".webp"
  else ".jpg"

/-- The `YotoAPIClient._get_or_download_artwork` (lines 640-662): return the
first existing cached file matching the card id with any extension before
touching the network; without a URL return `None`; otherwise fetch once,
infer the extension, write `f"{card_id}{ext}"` into the cache and return
it; any fetch failure yields `None` (logged, not raised).  Returns the
updated cache listing, the resulting path and the trace. -/
def get_or_download_artwork (fetch : FetchOutcome) (files : List String)
    (cid : String) (artUrl : Option String) :
    List String × Option String × List Event :=
  match (globArt files cid).head? with
  | some f => (files, some f, [])
  | none =>
    match artUrl with
    | none => (files, none, [])
    | some u =>
      if u = "" then (files, none, [])
      else
        match fetch with
        | .fail => (files, none, [Event.artFetch u])
        | .ok ct =>
          let name := cid ++ extOfContentType ct
          (files ++ [name], some name, [Event.artFetch u])

/-- The `YotoAPIClient.get_library` (lines 506-531): empty list without a
manager; the cached card list when not forced, non-empty and fresher than
300 seconds; otherwise `update_library` (the oracle `newLib`, whose
failure propagates), then one pass over the library building `Card`s and
fetching missing artwork, replacing the client's library and timestamp. -/
def get_library (forceRefresh : Bool) (now : Int)
    (newLib : Except Unit (List (String × LibItem)))
    (artFetch : String → FetchOutcome)
    (w : World) : Except String (World × List Card × List Event) :=
  match w.client.manager with
  | none => .ok (w, [], [])
  | some m =>
    if forceRefresh = false ∧ w.client.library ≠ [] ∧
        now - w.client.libraryTimestamp < 300 then
      .ok (w, w.client.library.map Prod.snd, [])
    else
      match newLib with
      | .error _ => .error "update_library raised"
      | .ok lib =>
        let init : List String × List Card × List Event :=
          (w.cacheFiles, [], [Event.updateLibrary])
        let res := lib.foldl (fun acc kv =>
          let art := get_or_download_artwork
            (artFetch (kv.2.cover_image_large.getD "")) acc.1 kv.1
            kv.2.cover_image_large
          let card : Card := { id := kv.1, title := kv.2.title, art_path := art.2.1 }
          (art.1, acc.2.1 ++ [card], acc.2.2 ++ art.2.2)) init
        let c' := { w.client with
          manager := some { m with library := lib },
          library := res.2.1.map (fun card => (card.id, card)),
          libraryTimestamp := now }
        .ok ({ w with client := c', cacheFiles := res.1 }, res.2.1, res.2.2)

/-- The client component of an operation's result (`none` when the
operation raised). -/
def resultClient : Except String (World × List Event) → Option Client
  | .ok (w, _) => some w.client
  | .error _ => none

/-- The outbound transport publishes an operation performed (empty when it
raised before returning). -/
def publishesOf : Except String (World × List Event) → List Event
  | .ok (_, ev) => ev.filter Event.isPublish
  | .error _ => []

/-- The `n` successive `pause()` invocations with the MQTT connect attempt
always failing and the publish never raising: the worst-case automatic
reconnection behaviour of the client. -/
def runPauseN : Nat → World → World × List Event
  | 0, w => (w, [])
  | n + 1, w =>
    match pause false false w with
    | .ok (w', ev) =>
      let r := runPauseN n w'
      (r.1, ev ++ r.2)
    | .error _ => (w, [])

/-- A one-chapter library item used as a concrete example input. -/
def exampleItem : LibItem :=
  { title := "T", chapters := [("01", { key := "01", title := "ch1", duration := 10 })] }

/-- A player positioned on chapter key "01" of card "c1". -/
def examplePlayer : Player := { card_id := some "c1", track_key := some "01" }

/-- A manager with one device and the one-chapter card resident. -/
def exampleManager : Manager :=
  { players := [("d1", examplePlayer)], library := [("c1", exampleItem)] }

/-- A world whose target device "d1" is selected via `YOTO_DEVICE_ID`. -/
def exampleWorld : World :=
  { env := some "d1", client := { manager := some exampleManager } }

end Core
end Yoto

/-- C1: the claim that, for every payload, every `DeviceState` field absent
from the payload keeps its previous value is false at this concrete input:
a payload containing only `playbackStatus`, applied to a state whose
battery level is known to be 50, resets `battery` (and likewise
`wifi_strength` and `ambient_light`) to absent. -/
theorem C1_absent_fields_counterexample :
    let s : Yoto.Backend.DeviceState :=
      { playback_status := "paused", card_id := some "abc123", volume := 5,
        battery := some 50, wifi_strength := some 70, temperature := some 21,
        ambient_light := some 3 }
    let p : Yoto.Backend.StatusPayload := { playbackStatus := some "playing" }
    ¬ ((Yoto.Backend.applyStatus s p).battery = s.battery ∧
       (Yoto.Backend.applyStatus s p).wifi_strength = s.wifi_strength ∧
       (Yoto.Backend.applyStatus s p).ambient_light = s.ambient_light) := by
  decide

/-- C1 (amended): `refresh_device_state` applies partial-update semantics
only to `playbackStatus`, `cardId`, `userVolumePercentage` and
`temperatureCelcius` — when those fields are absent the previous values are
kept — while `batteryLevelPercentage`, `wifiStrength` and
`ambientLightSensorReading` are overwritten with the payload's value
unconditionally, so omitting them clears the stored values to absent. -/
theorem C1_amended_field_semantics (s : Yoto.Backend.DeviceState)
    (p : Yoto.Backend.StatusPayload)
    (h1 : p.playbackStatus = none) (h2 : p.cardId = none)
    (h3 : p.userVolumePercentage = none) (h4 : p.temperatureCelcius = none) :
    (Yoto.Backend.applyStatus s p).playback_status = s.playback_status ∧
    (Yoto.Backend.applyStatus s p).card_id = s.card_id ∧
    (Yoto.Backend.applyStatus s p).volume = s.volume ∧
    (Yoto.Backend.applyStatus s p).temperature = s.temperature ∧
    (Yoto.Backend.applyStatus s p).battery = p.batteryLevelPercentage ∧
    (Yoto.Backend.applyStatus s p).wifi_strength = p.wifiStrength ∧
    (Yoto.Backend.applyStatus s p).ambient_light = p.ambientLightSensorReading := by
  simp [Yoto.Backend.applyStatus, h1, h2, h3, h4]

/-- Witness for C1 (amended) at a concrete state and payload. -/
theorem C1_amended_field_semantics_witness :
    let s : Yoto.Backend.DeviceState :=
      { playback_status := "paused", card_id := some "abc123", volume := 5,
        battery := some 50, wifi_strength := some 70, temperature := some 21,
        ambient_light := some 3 }
    let p : Yoto.Backend.StatusPayload := { batteryLevelPercentage := some 40 }
    (Yoto.Backend.applyStatus s p).playback_status = s.playback_status ∧
    (Yoto.Backend.applyStatus s p).card_id = s.card_id ∧
    (Yoto.Backend.applyStatus s p).volume = s.volume ∧
    (Yoto.Backend.applyStatus s p).temperature = s.temperature ∧
    (Yoto.Backend.applyStatus s p).battery = p.batteryLevelPercentage ∧
    (Yoto.Backend.applyStatus s p).wifi_strength = p.wifiStrength ∧
    (Yoto.Backend.applyStatus s p).ambient_light = p.ambientLightSensorReading :=
  C1_amended_field_semantics _ _ rfl rfl rfl rfl

namespace Yoto.Core

/-- The `_ensure_mqtt_connected` either leaves the world untouched or flips
only the connection flag while recording one connect attempt. -/
theorem ensure_mqtt_cases (ck : Bool) (w : World) :
    ensure_mqtt_connected ck w = (w, []) ∨
    ensure_mqtt_connected ck w =
      ({ w with mqttConnected := ck }, [Event.connectToEvents]) := by
  unfold ensure_mqtt_connected
  cases h : w.client.manager with
  | none => exact Or.inl rfl
  | some m =>
    by_cases hc : w.mqttConnected <;> simp [hc]

/-- Without a manager, `_ensure_mqtt_connected` does nothing. -/
theorem ensure_mqtt_no_manager (ck : Bool) (w : World)
    (h : w.client.manager = none) : ensure_mqtt_connected ck w = (w, []) := by
  unfold ensure_mqtt_connected
  rw [h]

/-- The `get_card_chapters` on a card already resident with a non-empty
chapters dict: no fetch, no client mutation, the mapped chapter dicts. -/
theorem get_card_chapters_resident (fd : Except Unit LibItem) (c : Client)
    (cid : String) (m : Manager) (item : LibItem)
    (hm : c.manager = some m) (hlib : m.library.lookup cid = some item)
    (hch : item.chapters ≠ []) :
    get_card_chapters fd c cid = (c, some (chapterEntries item), []) := by
  have hie : item.chapters.isEmpty = false := by
    cases h : item.chapters with
    | nil => exact absurd h hch
    | cons a t => rfl
  simp [get_card_chapters, hm, hlib, hie]

/-- The chapter dicts of a non-empty chapters dict form a non-empty list
of the same length. -/
theorem chapterEntries_ne_nil (item : LibItem) (hch : item.chapters ≠ []) :
    (chapterEntries item).isEmpty = false ∧
    (chapterEntries item).length = item.chapters.length := by
  refine ⟨?_, List.length_map _ _⟩
  cases h : item.chapters with
  | nil => exact absurd h hch
  | cons a t => simp [chapterEntries, h]

/-- Connect attempts add up over concatenated traces. -/
theorem connectAttempts_append (a b : List Event) :
    connectAttempts (a ++ b) = connectAttempts a + connectAttempts b := by
  simp [connectAttempts, List.filter_append]

/-- One `pause()` invocation while the manager exists and the connection
is down, with the connect attempt failing: it returns normally, leaves the
client untouched and the connection still down, and performs exactly one
automatic connect attempt. -/
theorem pause_disconnected_step (w : World) (m : Manager)
    (hm : w.client.manager = some m) (hc : w.mqttConnected = false) :
    ∃ ev, pause false false w = .ok ({ w with mqttConnected := false }, ev) ∧
      connectAttempts ev = 1 := by
  have hE : ensure_mqtt_connected false w =
      ({ w with mqttConnected := false }, [Event.connectToEvents]) := by
    unfold ensure_mqtt_connected
    rw [hm]
    simp [hc]
  cases hr : resolve_device_id w.env w.client with
  | none =>
    refine ⟨[Event.connectToEvents], ?_, rfl⟩
    simp [pause, hE, hm, hr]
  | some did =>
    cases hp : m.players.lookup did with
    | none =>
      refine ⟨[Event.connectToEvents], ?_, rfl⟩
      simp [pause, hE, hm, hr, hp]
    | some p =>
      refine ⟨[Event.connectToEvents] ++ [Event.publishPause did], ?_, ?_⟩
      · simp [pause, hE, hm, hr, hp]
      · simp [connectAttempts, Event.isConnect, List.filter]

/-- Appending a fresh binding to an association list without the key makes
it the lookup result. -/
theorem lookup_append_single (lib : List (String × LibItem)) (cid : String)
    (item : LibItem) (h : lib.lookup cid = none) :
    (lib ++ [(cid, item)]).lookup cid = some item := by
  induction lib with
  | nil => simp [List.lookup]
  | cons kv t ih =>
    rcases kv with ⟨k, v⟩
    cases hk : (cid == k) with
    | true => simp [List.lookup, hk] at h
    | false =>
      simp only [List.lookup, hk, List.cons_append] at h ⊢
      exact ih h

/-- A file written as the card id plus an inferred extension matches the
`f"{card_id}.*"` glob. -/
theorem matchesArt_self_ext (cid ct : String) :
    matchesArt cid (cid ++ extOfContentType ct) = true := by
  obtain ⟨rest, hext⟩ : ∃ rest, (extOfContentType ct).toList = '.' :: rest := by
    by_cases h1 : ['p', 'n', 'g'] <:+: List.map Char.toLower ct.data
    · exact ⟨['p', 'n', 'g'], by simp [extOfContentType, h1]⟩
    · by_cases h2 : ['w', 'e', 'b', 'p'] <:+: List.map Char.toLower ct.data
      · exact ⟨['w', 'e', 'b', 'p'], by simp [extOfContentType, h1, h2]⟩
      · exact ⟨['j', 'p', 'g'], by simp [extOfContentType, h1, h2]⟩
  unfold matchesArt
  rw [ List.isPrefixOf_iff_prefix]
  have h1 : (cid ++ extOfContentType ct).toList =
      cid.toList ++ (extOfContentType ct).toList := by
    simp [String.toList, String.data_append]
  rw [h1, hext]
  have h2 : cid.toList ++ '.' :: rest = (cid.toList ++ ['.']) ++ rest := by simp
  rw [h2]
  exact List.prefix_append _ _

/-- Repeated failing invocations: after `n` command calls with the
connection down, exactly `n` automatic connect attempts were made, and the
client is unchanged with the connection still down — the attempts never
stop accumulating. -/
theorem runPauseN_attempts (n : Nat) : ∀ (w : World) (m : Manager),
    w.client.manager = some m → w.mqttConnected = false →
    connectAttempts (runPauseN n w).2 = n ∧
    (runPauseN n w).1.client = w.client ∧
    (runPauseN n w).1.mqttConnected = false := by
  induction n with
  | zero =>
    intro w m hm hc
    exact ⟨rfl, rfl, hc⟩
  | succ n ih =>
    intro w m hm hc
    obtain ⟨ev, hstep, hcount⟩ := pause_disconnected_step w m hm hc
    have ih' := ih { w with mqttConnected := false } m hm rfl
    simp only [runPauseN, hstep]
    refine ⟨?_, ih'.2.1, ih'.2.2⟩
    rw [connectAttempts_append, hcount, ih'.1, Nat.add_comm]

end Yoto.Core

/-- C10: every public `YotoAPIClient` operation invoked before a
successful `authenticate` (manager still `None`) returns a benign default
without raising and without mutating any client state or publishing
anything: `get_library` returns the empty list, `get_card_chapters`
returns `None`, and the playback commands return having emitted no event,
with the world unchanged. -/
theorem C10_preauth_benign_defaults (w : Yoto.Core.World)
    (h : w.client.manager = none) :
    (∀ f now nl af, Yoto.Core.get_library f now nl af w = .ok (w, [], [])) ∧
    (∀ fd cid, Yoto.Core.get_card_chapters fd w.client cid = (w.client, none, [])) ∧
    (∀ ck pr, Yoto.Core.play ck pr w = .ok (w, []) ∧
      Yoto.Core.pause ck pr w = .ok (w, []) ∧
      Yoto.Core.resume ck pr w = .ok (w, []) ∧
      Yoto.Core.stop ck pr w = .ok (w, [])) ∧
    (∀ ck fd pcr poll, Yoto.Core.next_track ck fd pcr poll w = .ok (w, []) ∧
      Yoto.Core.previous_track ck fd pcr poll w = .ok (w, [])) ∧
    (∀ ck ch tk pcr poll cid,
      Yoto.Core.play_card ck ch tk pcr poll cid w = .ok (w, [])) := by
  refine ⟨?_, ?_, ?_, ?_, ?_⟩
  · intro f now nl af
    unfold Yoto.Core.get_library
    rw [h]
  · intro fd cid
    unfold Yoto.Core.get_card_chapters
    rw [h]
  · intro ck pr
    refine ⟨?_, ?_, ?_, ?_⟩ <;>
      simp [Yoto.Core.play, Yoto.Core.pause, Yoto.Core.resume, Yoto.Core.stop,
        Yoto.Core.ensure_mqtt_no_manager ck w h, h]
  · intro ck fd pcr poll
    constructor <;>
      simp [Yoto.Core.next_track, Yoto.Core.previous_track,
        Yoto.Core.ensure_mqtt_no_manager ck w h, h]
  · intro ck ch tk pcr poll cid
    simp [Yoto.Core.play_card, Yoto.Core.ensure_mqtt_no_manager ck w h, h]

/-- Witness for C10 on the freshly-constructed client (all defaults,
manager absent) with concrete oracle answers. -/
theorem C10_preauth_benign_defaults_witness :
    Yoto.Core.get_library true 0 (.error ()) (fun _ => .fail) {} =
      .ok ({}, [], []) ∧
    Yoto.Core.get_card_chapters (.error ()) ({} : Yoto.Core.Client) "abc" =
      ({}, none, []) ∧
    Yoto.Core.play true false {} = .ok ({}, []) ∧
    Yoto.Core.next_track true (.error ()) false (.ok []) {} = .ok ({}, []) :=
  ⟨(C10_preauth_benign_defaults {} rfl).1 true 0 (.error ()) (fun _ => .fail),
   (C10_preauth_benign_defaults {} rfl).2.1 (.error ()) "abc",
   ((C10_preauth_benign_defaults {} rfl).2.2.1 true false).1,
   ((C10_preauth_benign_defaults {} rfl).2.2.2.1 true (.error ()) false (.ok [])).1⟩

/-- C8: for a resolved, known device, `play()` is a no-op (nothing
published, client unchanged) whenever the player is offline or has no
loaded card, while `pause()`, `resume()` and `stop()` publish their
transport command regardless of the online flag and loaded content. -/
theorem C8_play_guarded_others_unconditional (w : Yoto.Core.World)
    (m : Yoto.Core.Manager) (did : String) (p : Yoto.Core.Player) (ck pr : Bool)
    (hm : w.client.manager = some m)
    (hd : Yoto.Core.resolve_device_id w.env w.client = some did)
    (hp : m.players.lookup did = some p) :
    ((p.online = false ∨ Yoto.Core.truthyStr p.card_id = false) →
      Yoto.Core.publishesOf (Yoto.Core.play ck pr w) = [] ∧
      Yoto.Core.resultClient (Yoto.Core.play ck pr w) = some w.client) ∧
    Yoto.Core.publishesOf (Yoto.Core.pause ck pr w) =
      [Yoto.Core.Event.publishPause did] ∧
    Yoto.Core.publishesOf (Yoto.Core.resume ck pr w) =
      [Yoto.Core.Event.publishResume did] ∧
    Yoto.Core.publishesOf (Yoto.Core.stop ck pr w) =
      [Yoto.Core.Event.publishStop did] := by
  rcases Yoto.Core.ensure_mqtt_cases ck w with hE | hE <;>
  · refine ⟨?_, ?_, ?_, ?_⟩
    · rintro (hg | hg)
      · constructor <;>
          simp [Yoto.Core.play, Yoto.Core.publishesOf, Yoto.Core.resultClient,
            hE, hm, hd, hp, hg, Yoto.Core.Event.isPublish, List.filter]
      · cases hpo : p.online <;> constructor <;>
          simp [Yoto.Core.play, Yoto.Core.publishesOf, Yoto.Core.resultClient,
            hE, hm, hd, hp, hg, hpo, Yoto.Core.Event.isPublish, List.filter]
    · simp [Yoto.Core.pause, Yoto.Core.publishesOf, hE, hm, hd, hp, ite_self,
        Yoto.Core.Event.isPublish, List.filter]
    · simp [Yoto.Core.resume, Yoto.Core.publishesOf, hE, hm, hd, hp, ite_self,
        Yoto.Core.Event.isPublish, List.filter]
    · simp [Yoto.Core.stop, Yoto.Core.publishesOf, hE, hm, hd, hp, ite_self,
        Yoto.Core.Event.isPublish, List.filter]

/-- Witness for C8 on a concrete world: one offline player with no card,
addressed through `YOTO_DEVICE_ID`. -/
theorem C8_play_guarded_others_unconditional_witness :
    (Yoto.Core.publishesOf (Yoto.Core.play true false
      { env := some "dev1",
        client := { manager := some { players := [("dev1", { online := false })] } } }) = [] ∧
      Yoto.Core.resultClient (Yoto.Core.play true false
        { env := some "dev1",
          client := { manager := some { players := [("dev1", { online := false })] } } }) =
        some { manager := some { players := [("dev1", { online := false })] } }) ∧
    Yoto.Core.publishesOf (Yoto.Core.pause true false
      { env := some "dev1",
        client := { manager := some { players := [("dev1", { online := false })] } } }) =
      [Yoto.Core.Event.publishPause "dev1"] ∧
    Yoto.Core.publishesOf (Yoto.Core.resume true false
      { env := some "dev1",
        client := { manager := some { players := [("dev1", { online := false })] } } }) =
      [Yoto.Core.Event.publishResume "dev1"] ∧
    Yoto.Core.publishesOf (Yoto.Core.stop true false
      { env := some "dev1",
        client := { manager := some { players := [("dev1", { online := false })] } } }) =
      [Yoto.Core.Event.publishStop "dev1"] := by
  have h := C8_play_guarded_others_unconditional
    { env := some "dev1",
      client := { manager := some { players := [("dev1", { online := false })] } } }
    { players := [("dev1", { online := false })] } "dev1" { online := false }
    true false rfl (by decide) (by decide)
  exact ⟨h.1 (Or.inl rfl), h.2.1, h.2.2.1, h.2.2.2⟩

/-- C6: with the active card's chapter list resident and non-empty, when
the current chapter/track key parses to an index at or past the last
chapter, `next_track` is a no-op — no transport publish, client state
unchanged; symmetrically, at index 1 or lower `previous_track` is a no-op.
Neither wraps around. -/
theorem C6_track_boundary_noop (w : Yoto.Core.World) (m : Yoto.Core.Manager)
    (did cid : String) (p : Yoto.Core.Player) (item : Yoto.Core.LibItem)
    (hm : w.client.manager = some m)
    (hd : Yoto.Core.resolve_device_id w.env w.client = some did)
    (hp : m.players.lookup did = some p)
    (hcard : p.card_id = some cid) (hcid : cid ≠ "")
    (hlib : m.library.lookup cid = some item)
    (hch : item.chapters ≠ []) :
    (Yoto.Core.parse_key (Yoto.Core.strOr p.track_key p.chapter_key) ≥
        item.chapters.length →
      ∀ ck fd pcr poll,
        Yoto.Core.resultClient (Yoto.Core.next_track ck fd pcr poll w) =
          some w.client ∧
        Yoto.Core.publishesOf (Yoto.Core.next_track ck fd pcr poll w) = []) ∧
    (Yoto.Core.parse_key (Yoto.Core.strOr p.track_key p.chapter_key) ≤ 1 →
      ∀ ck fd pcr poll,
        Yoto.Core.resultClient (Yoto.Core.previous_track ck fd pcr poll w) =
          some w.client ∧
        Yoto.Core.publishesOf (Yoto.Core.previous_track ck fd pcr poll w) = []) := by
  obtain ⟨hce, hlen⟩ := Yoto.Core.chapterEntries_ne_nil item hch
  constructor
  · intro hidx ck fd pcr poll
    have hgc := Yoto.Core.get_card_chapters_resident fd w.client cid m item hm hlib hch
    have hidx' : Yoto.Core.parse_key (Yoto.Core.strOr p.track_key p.chapter_key) ≥
        (Yoto.Core.chapterEntries item).length := hlen ▸ hidx
    rcases Yoto.Core.ensure_mqtt_cases ck w with hE | hE <;>
      constructor <;>
        simp [Yoto.Core.next_track, hE, hm, hd, hp, hcard, Yoto.Core.truthyStr,
          hcid, hgc, hce, hidx', Yoto.Core.resultClient, Yoto.Core.publishesOf,
          Yoto.Core.Event.isPublish, List.filter]
  · intro hidx ck fd pcr poll
    have hgc := Yoto.Core.get_card_chapters_resident fd w.client cid m item hm hlib hch
    rcases Yoto.Core.ensure_mqtt_cases ck w with hE | hE <;>
      constructor <;>
        simp [Yoto.Core.previous_track, hE, hm, hd, hp, hcard, Yoto.Core.truthyStr,
          hcid, hgc, hce, hidx, Yoto.Core.resultClient, Yoto.Core.publishesOf,
          Yoto.Core.Event.isPublish, List.filter]

/-- Witness for C6 on a concrete world: one chapter, current key "01",
which is simultaneously the last chapter (so `next_track` is a no-op) and
the first (so `previous_track` is a no-op). -/
theorem C6_track_boundary_noop_witness :
    Yoto.Core.resultClient
      (Yoto.Core.next_track true (.error ()) false (.ok []) Yoto.Core.exampleWorld) =
      some Yoto.Core.exampleWorld.client ∧
    Yoto.Core.publishesOf
      (Yoto.Core.next_track true (.error ()) false (.ok []) Yoto.Core.exampleWorld) = [] ∧
    Yoto.Core.publishesOf
      (Yoto.Core.previous_track true (.error ()) false (.ok []) Yoto.Core.exampleWorld) = [] := by
  have h := C6_track_boundary_noop Yoto.Core.exampleWorld Yoto.Core.exampleManager
    "d1" "c1" Yoto.Core.examplePlayer Yoto.Core.exampleItem
    rfl (by decide) (by decide) rfl (by decide) (by decide) (by decide)
  exact ⟨(h.1 (by decide) true (.error ()) false (.ok [])).1,
    (h.1 (by decide) true (.error ()) false (.ok [])).2,
    (h.2 (by decide) true (.error ()) false (.ok [])).2⟩

/-- C3: the claim that after exceeding a maximum retry bound the
connection is in a terminal DEGRADED state with zero further automatic
connect attempts is false: the code has no retry bound and no DEGRADED
state.  At this concrete input (a client with a manager, the connection
down, every connect attempt failing) three command invocations make three
automatic connect attempts, and a fourth invocation makes a fourth — so
for any claimed bound the attempt count after exceeding it is not zero. -/
theorem C3_degraded_counterexample :
    Yoto.Core.connectAttempts (Yoto.Core.runPauseN 3 Yoto.Core.exampleWorld).2 = 3 ∧
    Yoto.Core.connectAttempts (Yoto.Core.runPauseN 4 Yoto.Core.exampleWorld).2 = 4 := by
  decide

/-- C3 (amended): there is no reconnect supervision, retry bound or
DEGRADED state; `_ensure_mqtt_connected` runs on every command invocation,
so while the manager is initialized and the connection is down each of `n`
successive invocations performs one more automatic connect attempt — the
attempt count keeps growing instead of reaching a terminal zero, and only
an explicit caller action is absent from the picture because none is ever
needed. -/
theorem C3_unbounded_reconnect_amended (w : Yoto.Core.World)
    (m : Yoto.Core.Manager) (n : Nat)
    (hm : w.client.manager = some m) (hc : w.mqttConnected = false) :
    Yoto.Core.connectAttempts (Yoto.Core.runPauseN n w).2 = n ∧
    (Yoto.Core.runPauseN n w).1.client = w.client := by
  have h := Yoto.Core.runPauseN_attempts n w m hm hc
  exact ⟨h.1, h.2.1⟩

/-- Witness for C3 (amended) at the concrete example world and `n = 2`. -/
theorem C3_unbounded_reconnect_amended_witness :
    Yoto.Core.connectAttempts (Yoto.Core.runPauseN 2 Yoto.Core.exampleWorld).2 = 2 ∧
    (Yoto.Core.runPauseN 2 Yoto.Core.exampleWorld).1.client =
      Yoto.Core.exampleWorld.client :=
  C3_unbounded_reconnect_amended Yoto.Core.exampleWorld
    Yoto.Core.exampleManager 2 rfl rfl

/-- C4: the claim that no playback command ever raises on a transport
publish failure is false for the `yotobackend` client at this concrete
input: with a device selected, MQTT connected, the device known and the
publish failing, `YotoClient.pause()` raises `RuntimeError` to the
caller. -/
theorem C4_publish_failure_counterexample :
    Yoto.Backend.ycPause true
      { mqttConnected := true, deviceKnown := true, publishOk := false } =
      .error "Failed to send pause command" := rfl

/-- C4 (amended): in `YotoAPIClient` every playback command
(`play`/`pause`/`resume`/`stop`/`play_card`) catches transport publish
failures and returns normally; in `YotoClient`,
`_publish_device_command` catches the transport failure and reports it as
the boolean `False`, but the public `play`/`pause`/`resume`/
`stop_playback` then raise `RuntimeError` to the caller instead of
returning that boolean. -/
theorem C4_publish_failure_amended (ck pr : Bool) (w : Yoto.Core.World)
    (chapter : String) (tk : Option Nat)
    (poll : Except Unit (List (String × Yoto.Core.Player))) (cid : String)
    (env : Yoto.Backend.PublishEnv) (ds cl : Bool)
    (hfail : env.publishOk = false) :
    ((Yoto.Core.play ck pr w).isOk = true ∧
      (Yoto.Core.pause ck pr w).isOk = true ∧
      (Yoto.Core.resume ck pr w).isOk = true ∧
      (Yoto.Core.stop ck pr w).isOk = true ∧
      (Yoto.Core.play_card ck chapter tk pr poll cid w).isOk = true) ∧
    Yoto.Backend.publishDeviceCommand env = false ∧
    (ds = true → cl = true →
      Yoto.Backend.ycPlay ds cl env = .error "Failed to send play command" ∧
      Yoto.Backend.ycPause ds env = .error "Failed to send pause command" ∧
      Yoto.Backend.ycResume ds env = .error "Failed to send resume command" ∧
      Yoto.Backend.ycStopPlayback ds env = .error "Failed to send stop command") := by
  obtain ⟨mc, dk, po⟩ := env
  subst hfail
  refine ⟨⟨?_, ?_, ?_, ?_, ?_⟩, ?_, ?_⟩
  · simp only [Yoto.Core.play]
    repeat' split
    all_goals rfl
  · simp only [Yoto.Core.pause]
    repeat' split
    all_goals rfl
  · simp only [Yoto.Core.resume]
    repeat' split
    all_goals rfl
  · simp only [Yoto.Core.stop]
    repeat' split
    all_goals rfl
  · simp only [Yoto.Core.play_card]
    repeat' split
    all_goals rfl
  · cases mc <;> cases dk <;> rfl
  · rintro rfl rfl
    cases mc <;> cases dk <;> exact ⟨rfl, rfl, rfl, rfl⟩

/-- Witness for C4 (amended) at concrete inputs: default world, failing
publish, everything else in order. -/
theorem C4_publish_failure_amended_witness :
    ((Yoto.Core.play true true {}).isOk = true ∧
      (Yoto.Core.pause true true {}).isOk = true ∧
      (Yoto.Core.resume true true {}).isOk = true ∧
      (Yoto.Core.stop true true {}).isOk = true ∧
      (Yoto.Core.play_card true "3" none true (.ok []) "c1" {}).isOk = true) ∧
    Yoto.Backend.publishDeviceCommand
      { mqttConnected := true, deviceKnown := true, publishOk := false } = false ∧
    Yoto.Backend.ycPlay true true
      { mqttConnected := true, deviceKnown := true, publishOk := false } =
      .error "Failed to send play command" := by
  have h := C4_publish_failure_amended true true {} "3" none (.ok []) "c1"
    { mqttConnected := true, deviceKnown := true, publishOk := false }
    true true rfl
  exact ⟨h.1, h.2.1, (h.2.2 rfl rfl).1⟩

/-- C5: the claim that a failing remote detail fetch propagates to the
caller of `get_card_chapters` as a raised error rather than an empty
sequence is false at this concrete input: with the card absent from the
manager's library and the detail fetch failing, the call returns the
empty list — exactly the value that signals "no chapters" — and nothing
is raised (the `except` arm logs and returns `[]`). -/
theorem C5_fetch_failure_counterexample :
    Yoto.Core.get_card_chapters (.error ()) { manager := some {} } "abc123" =
      ({ manager := some {} }, some [],
        [Yoto.Core.Event.updateCardDetail "abc123"]) ∧
    Yoto.Core.get_card_chapters (.ok { title := "T" }) { manager := some {} } "abc123" =
      ({ manager := some { library := [("abc123", { title := "T" })] } }, some [],
        [Yoto.Core.Event.updateCardDetail "abc123"]) := by
  exact ⟨rfl, rfl⟩

/-- C5 (amended): `get_card_chapters` returns the chapter dicts for a
resident card with chapters (no fetch), the empty list for a card that is
resident or successfully fetched but has no chapters, and also the empty
list — not a raised error — when the detail fetch fails; "no chapters"
and "fetch failed" are therefore indistinguishable in the result, and
only the uninitialized-client case is distinguished (Python `None`). -/
theorem C5_empty_not_raised_amended (c : Yoto.Core.Client) (cid : String)
    (m : Yoto.Core.Manager) (hm : c.manager = some m) :
    (∀ item fd, m.library.lookup cid = some item → item.chapters ≠ [] →
      Yoto.Core.get_card_chapters fd c cid =
        (c, some (Yoto.Core.chapterEntries item), [])) ∧
    (∀ item, m.library.lookup cid = none → item.chapters = [] →
      (Yoto.Core.get_card_chapters (.ok item) c cid).2.1 = some []) ∧
    (m.library.lookup cid = none →
      Yoto.Core.get_card_chapters (.error ()) c cid =
        (c, some [], [Yoto.Core.Event.updateCardDetail cid])) := by
  refine ⟨?_, ?_, ?_⟩
  · intro item fd hl hc
    exact Yoto.Core.get_card_chapters_resident fd c cid m item hm hl hc
  · intro item hl hc
    have hset : Yoto.Core.setLib m.library cid item = m.library ++ [(cid, item)] := by
      simp [Yoto.Core.setLib, hl]
    have hlook := Yoto.Core.lookup_append_single m.library cid item hl
    simp [Yoto.Core.get_card_chapters, hm, hl, hset, hlook, hc]
  · intro hl
    simp [Yoto.Core.get_card_chapters, hm, hl]

/-- Witness for C5 (amended) on the concrete example library: card "c1"
is resident with one chapter; card "zz" is absent and its fetch fails. -/
theorem C5_empty_not_raised_amended_witness :
    Yoto.Core.get_card_chapters (.error ()) Yoto.Core.exampleWorld.client "c1" =
      (Yoto.Core.exampleWorld.client,
        some (Yoto.Core.chapterEntries Yoto.Core.exampleItem), []) ∧
    Yoto.Core.get_card_chapters (.error ()) Yoto.Core.exampleWorld.client "zz" =
      (Yoto.Core.exampleWorld.client, some [],
        [Yoto.Core.Event.updateCardDetail "zz"]) :=
  ⟨(C5_empty_not_raised_amended Yoto.Core.exampleWorld.client "c1"
      Yoto.Core.exampleManager rfl).1 Yoto.Core.exampleItem (.error ())
      (by decide) (by decide),
   (C5_empty_not_raised_amended Yoto.Core.exampleWorld.client "zz"
      Yoto.Core.exampleManager rfl).2.2 (by decide)⟩

/-- C7: starting with no cached file for the content id, if the first
`_get_or_download_artwork` call succeeds it performs exactly one network
fetch; the second call with the carried-over cache finds the written file
by the pre-fetch glob check, performs no fetch, and returns the same
path. -/
theorem C7_artwork_single_fetch (files : List String) (cid : String)
    (url : Option String) (fetch1 fetch2 : Yoto.Core.FetchOutcome) (p : String)
    (hinit : Yoto.Core.globArt files cid = [])
    (hsucc : (Yoto.Core.get_or_download_artwork fetch1 files cid url).2.1 = some p) :
    (Yoto.Core.get_or_download_artwork fetch1 files cid url).2.2.length = 1 ∧
    Yoto.Core.get_or_download_artwork fetch2
        (Yoto.Core.get_or_download_artwork fetch1 files cid url).1 cid url =
      ((Yoto.Core.get_or_download_artwork fetch1 files cid url).1, some p, []) := by
  have h0 : (Yoto.Core.globArt files cid).head? = none := by rw [hinit]; rfl
  cases url with
  | none =>
    simp [Yoto.Core.get_or_download_artwork, h0] at hsucc
  | some u =>
    by_cases hu : u = ""
    · simp [Yoto.Core.get_or_download_artwork, h0, hu] at hsucc
    · cases fetch1 with
      | fail => simp [Yoto.Core.get_or_download_artwork, h0, hu] at hsucc
      | ok ct =>
        have hr1 : Yoto.Core.get_or_download_artwork (.ok ct) files cid (some u) =
            (files ++ [cid ++ Yoto.Core.extOfContentType ct],
              some (cid ++ Yoto.Core.extOfContentType ct),
              [Yoto.Core.Event.artFetch u]) := by
          simp [Yoto.Core.get_or_download_artwork, h0, hu]
        have hp : p = cid ++ Yoto.Core.extOfContentType ct := by
          rw [hr1] at hsucc
          exact (Option.some_inj.mp hsucc).symm
        have hglob2 : Yoto.Core.globArt
            (files ++ [cid ++ Yoto.Core.extOfContentType ct]) cid =
            [cid ++ Yoto.Core.extOfContentType ct] := by
          unfold Yoto.Core.globArt at hinit ⊢
          rw [List.filter_append, hinit, List.nil_append]
          simp [Yoto.Core.matchesArt_self_ext]
        rw [hr1, hp]
        constructor
        · rfl
        · simp [Yoto.Core.get_or_download_artwork, hglob2]

/-- Witness for C7: empty cache, a URL, a successful JPEG fetch first and
a failing fetch second — one fetch in total and the cached path on the
second call. -/
theorem C7_artwork_single_fetch_witness :
    (Yoto.Core.get_or_download_artwork (.ok "image/jpeg") [] "c1"
        (some "http://a/b")).2.2.length = 1 ∧
    Yoto.Core.get_or_download_artwork .fail
        (Yoto.Core.get_or_download_artwork (.ok "image/jpeg") [] "c1"
          (some "http://a/b")).1 "c1" (some "http://a/b") =
      ((Yoto.Core.get_or_download_artwork (.ok "image/jpeg") [] "c1"
          (some "http://a/b")).1, some "c1.jpg", []) :=
  C7_artwork_single_fetch [] "c1" (some "http://a/b") (.ok "image/jpeg") .fail
    "c1.jpg" rfl (by decide)

/-- C9: calling `stop()` on a client on which `start()` was never called
completes without raising and leaves the client terminated: both
background tasks absent, the MQTT client cleared, the connection flag
down and the HTTP session closed. -/
theorem C9_stop_before_start_safe :
    Yoto.Backend.ycStop Yoto.Backend.initShutdownState =
      .ok { refreshTask := none, stateTask := none, mqttClientPresent := false,
            mqttConnected := false, sessionOpen := false } := rfl

/-- C2: a `cardId` of the literal string `"none"` clears the stored
`card_id` to absent regardless of its previous value, and any non-empty
`cardId` other than `"none"` becomes the stored `card_id`. -/
theorem C2_card_id_none_normalized (s : Yoto.Backend.DeviceState)
    (p : Yoto.Backend.StatusPayload) :
    (p.cardId = some "none" → (Yoto.Backend.applyStatus s p).card_id = none) ∧
    (∀ c : String, p.cardId = some c → c ≠ "none" → c ≠ "" →
      (Yoto.Backend.applyStatus s p).card_id = some c) := by
  constructor
  · intro h
    simp [Yoto.Backend.applyStatus, h]
  · intro c hc hnone hempty
    simp [Yoto.Backend.applyStatus, hc, hnone, hempty]

/-- Witness for C2 at concrete inputs: `"none"` clears a previously stored
card id, and `"abc123"` replaces it. -/
theorem C2_card_id_none_normalized_witness :
    letI s : Yoto.Backend.DeviceState := { card_id := some "xyz" }
    (Yoto.Backend.applyStatus s { cardId := some "none" }).card_id = none ∧
    (Yoto.Backend.applyStatus s { cardId := some "abc123" }).card_id = some "abc123" :=
  ⟨(C2_card_id_none_normalized _ _).1 rfl,
   (C2_card_id_none_normalized _ _).2 "abc123" rfl (by decide) (by decide)⟩
